import Mathlib

/-!
Verification of `ext/lv2/gstlv2.c` (the LV2 bridge element of gst-plugins-bad).

The development shallowly embeds the introspection-to-descriptor pipeline of
the file: port/group classification (`gst_lv2_base_init`), category tag
synthesis, pad-template registration, parameter-spec synthesis
(`gst_lv2_class_get_param_spec`), the property get/set surface, the instance
lifecycle (`gst_lv2_setup`), the per-cycle buffer rebinding (`gst_lv2_process`)
and the discovery scan (`lv2_plugin_discover`).

Machine floats (`gfloat`) only ever flow through copies and order comparisons
in this code, so control values are modelled as exact rationals; `guint`
arithmetic is modelled as `Nat` with explicit reduction modulo 2^32 where the
source relies on unsigned wrap-around. SLV2 library calls (the RDF store) are
modelled as fields of the plugin record that answer the queries the source
makes.
-/

/-- One LV2 port as the source observes it through SLV2 queries:
`slv2_port_is_a (input_class / audio_class / control_class)`,
`slv2_port_get_value (in_group_pred)` (group URI annotation, if any),
`slv2_port_has_property (toggled_prop / integer_prop)`,
`slv2_port_get_range` and `slv2_port_get_symbol`.  Group URIs are
abstracted as `Nat` identifiers. -/
structure LV2PortDesc where
  isInput : Bool
  groupUri : Option Nat
  isAudio : Bool
  isControl : Bool
  toggled : Bool
  integer : Bool
  rdef : Option ℚ
  rmin : Option ℚ
  rmax : Option ℚ
  symbol : String
  deriving Repr, DecidableEq

/-- `struct _GstLV2Port { gint index; gint pad; }`. -/
structure GstLV2Port where
  index : Nat
  pad : Nat
  deriving Repr, DecidableEq

/-- `struct _GstLV2Group`: group URI, assigned pad slot, member ports in
discovery order, optional group symbol. -/
structure GstLV2Group where
  uri : Nat
  pad : Nat
  ports : List GstLV2Port
  symbol : Option String
  deriving Repr, DecidableEq

/-- One discovered SLV2 plugin: its ports in declaration-index order and the
group-symbol store answering
`slv2_plugin_get_value_for_subject (group_uri, lv2_symbol_pred)`
(first value if present), plus the `inPlaceBroken` feature flag. -/
structure SLV2PluginM where
  ports : List LV2PortDesc
  groupSymbols : List (Nat × String)
  inPlaceBroken : Bool
  deriving Repr, DecidableEq

/-- First declared symbol for a group URI, or none (the `sub_values` lookup in
`gst_lv2_base_init`). -/
def groupSymbolOf (plug : SLV2PluginM) (uri : Nat) : Option String :=
  (plug.groupSymbols.find? (fun e => e.1 == uri)).map (fun e => e.2)

/-- The classification state built by the port loop of `gst_lv2_base_init`:
the six `GArray`s of `GstLV2Class` plus the two running pad counters. -/
structure GstLV2ClassState where
  in_groups : List GstLV2Group
  out_groups : List GstLV2Group
  audio_in_ports : List GstLV2Port
  audio_out_ports : List GstLV2Port
  control_in_ports : List GstLV2Port
  control_out_ports : List GstLV2Port
  in_pad_index : Nat
  out_pad_index : Nat
  deriving Repr, DecidableEq

def initClassState : GstLV2ClassState :=
  ⟨[], [], [], [], [], [], 0, 0⟩

/-- `gst_lv2_class_find_group`: position of the group with the given URI. -/
def gst_lv2_class_find_group (groups : List GstLV2Group) (uri : Nat) : Option Nat :=
  groups.findIdx? (fun g => g.uri == uri)

/-- Append a member port to the group at position `k`
(`g_array_append_val (group->ports, desc)`). -/
def appendPortToGroup (groups : List GstLV2Group) (k : Nat) (d : GstLV2Port) :
    List GstLV2Group :=
  match groups.get? k with
  | some g => groups.set k { g with ports := g.ports ++ [d] }
  | none => groups

/-- One iteration of the port loop of `gst_lv2_base_init` (lines 126-175):
`j` is the port's declaration index.  A port with an `inGroup` annotation is
routed to the group bucket of its direction (the group record is created on
first sighting, taking the next shared pad slot of that direction); an
ungrouped audio port takes the next shared pad slot of its direction; an
ungrouped control port is recorded without a pad; any other ungrouped port is
skipped (`continue`). -/
def classifyPort (plug : SLV2PluginM) (j : Nat) (p : LV2PortDesc)
    (s : GstLV2ClassState) : GstLV2ClassState :=
  let desc : GstLV2Port := ⟨j, 0⟩
  match p.groupUri with
  | some uri =>
    if p.isInput then
      match gst_lv2_class_find_group s.in_groups uri with
      | some k => { s with in_groups := appendPortToGroup s.in_groups k desc }
      | none =>
        let g : GstLV2Group := ⟨uri, s.in_pad_index, [desc], groupSymbolOf plug uri⟩
        { s with in_groups := s.in_groups ++ [g], in_pad_index := s.in_pad_index + 1 }
    else
      match gst_lv2_class_find_group s.out_groups uri with
      | some k => { s with out_groups := appendPortToGroup s.out_groups k desc }
      | none =>
        let g : GstLV2Group := ⟨uri, s.out_pad_index, [desc], groupSymbolOf plug uri⟩
        { s with out_groups := s.out_groups ++ [g], out_pad_index := s.out_pad_index + 1 }
  | none =>
    if p.isAudio then
      if p.isInput then
        { s with audio_in_ports := s.audio_in_ports ++ [{ desc with pad := s.in_pad_index }],
                 in_pad_index := s.in_pad_index + 1 }
      else
        { s with audio_out_ports := s.audio_out_ports ++ [{ desc with pad := s.out_pad_index }],
                 out_pad_index := s.out_pad_index + 1 }
    else if p.isControl then
      if p.isInput then
        { s with control_in_ports := s.control_in_ports ++ [desc] }
      else
        { s with control_out_ports := s.control_out_ports ++ [desc] }
    else
      s

/-- The port loop of `gst_lv2_base_init`, indices threaded from `j`. -/
def classifyFrom (plug : SLV2PluginM) : Nat → GstLV2ClassState → List LV2PortDesc →
    GstLV2ClassState
  | _, s, [] => s
  | j, s, p :: rest => classifyFrom plug (j + 1) (classifyPort plug j p s) rest

/-- The whole classification performed by `gst_lv2_base_init`. -/
def gst_lv2_base_init_classify (plug : SLV2PluginM) : GstLV2ClassState :=
  classifyFrom plug 0 initClassState plug.ports

/-- The category tag computation of `gst_lv2_base_init` (lines 240-248),
as a function of `num_audio_in`, `num_audio_out`, `num_control_out`. -/
def gst_lv2_klass_tags (numAudioIn numAudioOut numControlOut : Nat) : String :=
  if numAudioIn = 0 then "Source/Audio/LV2"
  else if numAudioOut = 0 then
    if numControlOut = 0 then "Sink/Audio/LV2"
    else "Sink/Analyzer/Audio/LV2"
  else "Filter/Effect/Audio/LV2"

/-- The tag `gst_lv2_base_init` stores in the element details: the counts fed
to the branch are the lengths of the classified ungrouped buckets
(`gsp_class->num_audio_in` etc., lines 177-182). -/
def gst_lv2_base_init_tags (plug : SLV2PluginM) : String :=
  let s := gst_lv2_base_init_classify plug
  gst_lv2_klass_tags s.audio_in_ports.length s.audio_out_ports.length
    s.control_out_ports.length

/-- Number of audio input ports the plugin declares (grouped or not). -/
def pluginAudioInputs (plug : SLV2PluginM) : Nat :=
  (plug.ports.filter (fun p => p.isInput && p.isAudio)).length

/-- Number of audio output ports the plugin declares (grouped or not). -/
def pluginAudioOutputs (plug : SLV2PluginM) : Nat :=
  (plug.ports.filter (fun p => !p.isInput && p.isAudio)).length

/-! ## Pad templates -/

inductive GstPadDirection where
  | sink
  | src
  deriving Repr, DecidableEq

/-- One call to `gst_signal_processor_class_add_pad_template`:
name, direction, pad slot argument, channel count. -/
structure PadTemplate where
  name : Option String
  direction : GstPadDirection
  slot : Nat
  channels : Nat
  deriving Repr, DecidableEq

/-- Symbol of the port with declaration index `i`
(`slv2_port_get_symbol (slv2_plugin_get_port_by_index ...)`). -/
def portSymbolAt (plug : SLV2PluginM) (i : Nat) : String :=
  ((plug.ports.get? i).map (fun p => p.symbol)).getD ""

/-- Input-group pad templates (lines 184-190): direction `GST_PAD_SINK`,
slot `j` within the loop, channel count = member count. -/
def in_group_templates (s : GstLV2ClassState) : List PadTemplate :=
  s.in_groups.enum.map (fun gi =>
    ⟨gi.2.symbol, GstPadDirection.sink, gi.1, gi.2.ports.length⟩)

/-- Output-group pad templates (lines 192-198): direction `GST_PAD_SRC`. -/
def out_group_templates (s : GstLV2ClassState) : List PadTemplate :=
  s.out_groups.enum.map (fun gi =>
    ⟨gi.2.symbol, GstPadDirection.src, gi.1, gi.2.ports.length⟩)

/-- Ungrouped audio input pad templates (lines 200-209):
direction `GST_PAD_SINK`, one channel. -/
def audio_in_templates (plug : SLV2PluginM) (s : GstLV2ClassState) : List PadTemplate :=
  s.audio_in_ports.enum.map (fun pi =>
    ⟨some (portSymbolAt plug pi.2.index), GstPadDirection.sink, pi.1, 1⟩)

/-- Ungrouped audio output pad templates (lines 211-220): the source passes
the literal `GST_PAD_SINK` constant in this loop as well. -/
def audio_out_templates (plug : SLV2PluginM) (s : GstLV2ClassState) : List PadTemplate :=
  s.audio_out_ports.enum.map (fun pi =>
    ⟨some (portSymbolAt plug pi.2.index), GstPadDirection.sink, pi.1, 1⟩)

/-- All pad templates registered by `gst_lv2_base_init`, in registration
order. -/
def gst_lv2_pad_templates (plug : SLV2PluginM) (s : GstLV2ClassState) :
    List PadTemplate :=
  in_group_templates s ++ out_group_templates s ++ audio_in_templates plug s ++
    audio_out_templates plug s

/-! ## Parameter specs (`gst_lv2_class_get_param_spec`) -/

inductive PSpecKind where
  | boolSpec
  | intSpec
  | floatSpec
  deriving Repr, DecidableEq

/-- The data handed to `g_param_spec_boolean / _int / _float`: name, value
kind and the numeric `lower`, `upper`, `def` arguments (as the `gfloat`
values the source computes; the integer constructor's C cast of these
arguments happens inside the external GLib call).  `warned` records whether a
`GST_WARNING` about an out-of-range default was emitted. -/
structure GParamSpecM where
  name : String
  kind : PSpecKind
  lower : ℚ
  upper : ℚ
  defaultValue : ℚ
  warned : Bool
  deriving Repr, DecidableEq

/-- `gst_lv2_class_get_param_spec` (lines 272-329).  A toggled port yields a
boolean spec (default FALSE, no range handling).  Otherwise the declared
range is read with fallbacks `def = 0`, `lower = 0`, `upper = 1`; a default
below `lower` widens `lower` down to it with a warning, a default above
`upper` widens `upper` up to it with a warning; the kind is integer when the
port carries the `integer` property and float otherwise. -/
def gst_lv2_class_get_param_spec (plug : SLV2PluginM) (portnum : Nat) :
    Option GParamSpecM :=
  match plug.ports.get? portnum with
  | none => none
  | some port =>
    let name := port.symbol
    if port.toggled then
      some ⟨name, PSpecKind.boolSpec, 0, 1, 0, false⟩
    else
      let dv : ℚ := port.rdef.getD 0
      let lower0 : ℚ := port.rmin.getD 0
      let upper0 : ℚ := port.rmax.getD 1
      let lowWarn : Bool := decide (dv < lower0)
      let lower1 : ℚ := if dv < lower0 then dv else lower0
      let highWarn : Bool := decide (dv > upper0)
      let upper1 : ℚ := if dv > upper0 then dv else upper0
      some ⟨name, if port.integer then PSpecKind.intSpec else PSpecKind.floatSpec,
        lower1, upper1, dv, lowWarn || highWarn⟩

/-! ## Property get/set surface -/

/-- The per-instance control storage of `GstSignalProcessor`
(`control_in` / `control_out` arrays of `gfloat`). -/
structure GstSPControls where
  control_in : List ℚ
  control_out : List ℚ
  deriving Repr, DecidableEq

/-- The class counts the property handlers consult. -/
structure GstSPClassCounts where
  num_control_in : Nat
  num_control_out : Nat
  deriving Repr, DecidableEq

/-- A `GValue` restricted to the three value types the synthesized specs use. -/
inductive GValueM where
  | boolV (b : Bool)
  | intV (n : Int)
  | floatV (q : ℚ)
  deriving Repr, DecidableEq

/-- `guint` modulus, 2^32. -/
def GUINT_MOD : Nat := 4294967296

/-- C float-to-int conversion truncates toward zero. -/
def truncToInt (q : ℚ) : Int :=
  if 0 ≤ q then q.floor else q.ceil

/-- `CLAMP (x, G_MININT, G_MAXINT)` on the stored control value. -/
def gintClamp (q : ℚ) : ℚ :=
  max (-(2 ^ 31 : ℚ)) (min q ((2 ^ 31 : ℚ) - 1))

/-- `gst_lv2_set_property` (lines 385-415): `prop_id` is a `guint`, so the
initial `prop_id--` wraps modulo 2^32; the write is refused
(`g_return_if_fail`, storage unchanged) unless the decremented id addresses a
control input.  A boolean value stores `0.0` for TRUE and `1.0` for FALSE; an
int or float value is stored as is. -/
def gst_lv2_set_property (cls : GstSPClassCounts) (gsp : GstSPControls)
    (prop_id : Nat) (v : GValueM) : GstSPControls :=
  let pid := (prop_id + (GUINT_MOD - 1)) % GUINT_MOD
  if pid < cls.num_control_in then
    let x : ℚ :=
      match v with
      | GValueM.boolV b => if b then 0 else 1
      | GValueM.intV n => (n : ℚ)
      | GValueM.floatV q => q
    { gsp with control_in := gsp.control_in.set pid x }
  else
    gsp

/-- `gst_lv2_get_property` (lines 417-454): the decremented id selects the
control-input slot when below `num_control_in`, else the control-output slot
shifted down by `num_control_in`, else the read is refused
(`g_return_if_reached`, modelled as `none`).  The stored value is rendered
according to the spec kind: boolean as `value > 0`, integer clamped to the
`gint` range and truncated, float as is. -/
def gst_lv2_get_property (cls : GstSPClassCounts) (gsp : GstSPControls)
    (prop_id : Nat) (kind : PSpecKind) : Option GValueM :=
  let pid := (prop_id + (GUINT_MOD - 1)) % GUINT_MOD
  let read : List ℚ → Nat → GValueM := fun controls k =>
    let x := controls.getD k 0
    match kind with
    | PSpecKind.boolSpec => GValueM.boolV (decide (x > 0))
    | PSpecKind.intSpec => GValueM.intV (truncToInt (gintClamp x))
    | PSpecKind.floatSpec => GValueM.floatV x
  if pid < cls.num_control_in then
    some (read gsp.control_in pid)
  else if pid < cls.num_control_in + cls.num_control_out then
    some (read gsp.control_out (pid - cls.num_control_in))
  else
    none

/-! ## Instance lifecycle (`gst_lv2_setup` / `_start` / `_stop` / `_cleanup`) -/

/-- The per-instance fields of `GstLV2`: the `slv2_instance_instantiate`
handle (abstracted as a `Nat` id) and the activation flag. -/
structure GstLV2Inst where
  instanceH : Option Nat
  activated : Bool
  deriving Repr, DecidableEq

/-- Target of a control binding made in `gst_lv2_setup`:
`&gsp->control_in[i]` or `&gsp->control_out[i]`. -/
inductive CtrlRef where
  | ctrlIn (i : Nat)
  | ctrlOut (i : Nat)
  deriving Repr, DecidableEq

/-- `gst_lv2_setup` (lines 456-487).  The only precondition checked is
`lv2->activated == FALSE`; `slv2_plugin_instantiate` is then called (the host
library, modelled as the `instantiate` argument from the sample rate) and its
result stored into `lv2->instance` before the NULL check.  On success every
control input and then every control output slot is connected by position.
Returns the `gboolean` result, the new instance state, and the control
binding calls made. -/
def gst_lv2_setup (instantiate : Nat → Option Nat) (cls : GstLV2ClassState)
    (lv2 : GstLV2Inst) (sample_rate : Nat) :
    Bool × GstLV2Inst × List (Nat × CtrlRef) :=
  if lv2.activated then (false, lv2, [])
  else
    match instantiate sample_rate with
    | none => (false, { lv2 with instanceH := none }, [])
    | some h =>
      (true, { lv2 with instanceH := some h },
        (cls.control_in_ports.enum.map (fun pi => (pi.2.index, CtrlRef.ctrlIn pi.1))) ++
          (cls.control_out_ports.enum.map (fun pi => (pi.2.index, CtrlRef.ctrlOut pi.1))))

/-- `gst_lv2_start` (lines 489-504): fails unless inactive with an instance;
on success activates. -/
def gst_lv2_start (lv2 : GstLV2Inst) : Bool × GstLV2Inst :=
  if lv2.activated then (false, lv2)
  else
    match lv2.instanceH with
    | none => (false, lv2)
    | some _ => (true, { lv2 with activated := true })

/-- `gst_lv2_stop` (lines 506-519): requires active with an instance;
deactivates. -/
def gst_lv2_stop (lv2 : GstLV2Inst) : GstLV2Inst :=
  if !lv2.activated then lv2
  else
    match lv2.instanceH with
    | none => lv2
    | some _ => { lv2 with activated := false }

/-- `gst_lv2_cleanup` (lines 521-534): requires inactive with an instance;
frees the instance. -/
def gst_lv2_cleanup (lv2 : GstLV2Inst) : GstLV2Inst :=
  if lv2.activated then lv2
  else
    match lv2.instanceH with
    | none => lv2
    | some _ => { lv2 with instanceH := none }

/-! ## Per-cycle processing (`gst_lv2_process`) -/

/-- A buffer location handed to `slv2_instance_connect_port` during
`gst_lv2_process`: the group pad buffers carry a byte-free frame offset
(`gst_group->buffer + j * nframes`), ungrouped ports bind the whole
per-pad buffer. -/
inductive BufRef where
  | groupInBuf (padIdx offset : Nat)
  | audioInBuf (padIdx : Nat)
  | groupOutBuf (padIdx offset : Nat)
  | audioOutBuf (padIdx : Nat)
  deriving Repr, DecidableEq

/-- Observable calls made by `gst_lv2_process`: port connections and the final
`slv2_instance_run`. -/
inductive LV2Event where
  | connect (portIndex : Nat) (buf : BufRef)
  | runStep (nframes : Nat)
  deriving Repr, DecidableEq

def isRunEvent : LV2Event → Bool
  | LV2Event.runStep _ => true
  | _ => false

/-- Inner member loop of a group bucket: member at position `j` is connected
at offset `j * nframes` within the group's pad buffer. -/
def memberBindsFrom (mk : Nat → Nat → BufRef) (nframes i : Nat) :
    Nat → List GstLV2Port → List LV2Event
  | _, [] => []
  | j, p :: ps =>
    LV2Event.connect p.index (mk i (j * nframes)) :: memberBindsFrom mk nframes i (j + 1) ps

/-- Outer loop over a group bucket, `i` the group position. -/
def groupBindsFrom (mk : Nat → Nat → BufRef) (nframes : Nat) :
    Nat → List GstLV2Group → List LV2Event
  | _, [] => []
  | i, g :: gs =>
    memberBindsFrom mk nframes i 0 g.ports ++ groupBindsFrom mk nframes (i + 1) gs

/-- Loop over an ungrouped audio bucket, `i` the bucket position. -/
def audioBindsFrom (mk : Nat → BufRef) : Nat → List GstLV2Port → List LV2Event
  | _, [] => []
  | i, p :: ps => LV2Event.connect p.index (mk i) :: audioBindsFrom mk (i + 1) ps

/-- `gst_lv2_process` (lines 536-581): rebinds grouped inputs, then ungrouped
audio inputs, then grouped outputs, then ungrouped audio outputs, then calls
`slv2_instance_run (lv2->instance, nframes)` once. -/
def gst_lv2_process (cls : GstLV2ClassState) (nframes : Nat) : List LV2Event :=
  groupBindsFrom BufRef.groupInBuf nframes 0 cls.in_groups ++
    audioBindsFrom BufRef.audioInBuf 0 cls.audio_in_ports ++
    groupBindsFrom BufRef.groupOutBuf nframes 0 cls.out_groups ++
    audioBindsFrom BufRef.audioOutBuf 0 cls.audio_out_ports ++
    [LV2Event.runStep nframes]

/-! ## Discovery (`lv2_plugin_discover`) -/

/-- One discovered plugin for the registration scan: an identity and the URI
string of `slv2_plugin_get_uri`. -/
structure DiscPlugin where
  id : Nat
  uri : List Char
  deriving Repr, DecidableEq

/-- Characters of `G_CSET_A_2_Z G_CSET_a_2_z G_CSET_DIGITS "-+"`. -/
def lv2ValidChar (c : Char) : Bool :=
  c.isAlpha || c.isDigit || c == '-' || c == '+'

/-- `g_strcanon (type_name, ..., ch)` replaces every character outside the
valid set with the dash substitute. -/
def g_strcanon (s : List Char) : List Char :=
  s.map (fun c => if lv2ValidChar c then c else '-')

/-- The GType name registry: registration order, name to plugin id. -/
def TypeRegistry := List (List Char × Nat)

/-- `g_type_from_name`-style lookup: earliest registration wins. -/
def lookupType (reg : List (List Char × Nat)) (name : List Char) : Option Nat :=
  (reg.find? (fun e => e.1 == name)).map (fun e => e.2)

/-- One iteration of `lv2_plugin_discover`: sanitize the plugin URI into a
type name; if a type of that name already exists (`g_type_from_name`), skip
(`goto next`); otherwise register the new type. -/
def lv2_register_step (reg : List (List Char × Nat)) (p : DiscPlugin) :
    List (List Char × Nat) :=
  let name := g_strcanon p.uri
  if reg.any (fun e => e.1 == name) then reg
  else reg ++ [(name, p.id)]

/-- `lv2_plugin_discover` (lines 583-631): iterates all plugins once and
always returns TRUE. -/
def lv2_plugin_discover (plugins : List DiscPlugin) :
    Bool × List (List Char × Nat) :=
  (true, plugins.foldl lv2_register_step [])

/-! ## Derived views used by the statements -/

/-- All pad slots assigned in the input direction, groups first then
ungrouped audio ports (each list in assignment order). -/
def inPadSlots (s : GstLV2ClassState) : List Nat :=
  s.in_groups.map (fun g => g.pad) ++ s.audio_in_ports.map (fun p => p.pad)

/-- All pad slots assigned in the output direction. -/
def outPadSlots (s : GstLV2ClassState) : List Nat :=
  s.out_groups.map (fun g => g.pad) ++ s.audio_out_ports.map (fun p => p.pad)

/-! ## Concrete inputs used in counterexamples and witnesses -/

/-- A plugin whose first port is a grouped audio input and whose second port
is an ungrouped audio input. -/
def c2CexPlug : SLV2PluginM :=
  ⟨[⟨true, some 0, true, false, false, false, none, none, none, "g0"⟩,
    ⟨true, none, true, false, false, false, none, none, none, "a0"⟩],
   [(0, "grp")], false⟩

/-- A plugin with one grouped audio input and one ungrouped audio output. -/
def c3CexPlug : SLV2PluginM :=
  ⟨[⟨true, some 5, true, false, false, false, none, none, none, "gin"⟩,
    ⟨false, none, true, false, false, false, none, none, none, "aout"⟩],
   [(5, "grp")], false⟩

/-- A plugin with one ungrouped audio input and one ungrouped audio output. -/
def filterPlug : SLV2PluginM :=
  ⟨[⟨true, none, true, false, false, false, none, none, none, "ain"⟩,
    ⟨false, none, true, false, false, false, none, none, none, "aout"⟩],
   [], false⟩

/-- A plugin with no ports at all. -/
def emptyPlug : SLV2PluginM := ⟨[], [], false⟩

/-- A plugin whose only port is a control input with default 3/2 outside the
declared range [0, 1]. -/
def c4WitnessPlug : SLV2PluginM :=
  ⟨[⟨true, none, false, true, false, false, some (3 / 2), some 0, some 1, "gain"⟩],
   [], false⟩

/-- A classification with one two-member input group, used to exercise the
processing offsets. -/
def c5WitnessState : GstLV2ClassState :=
  ⟨[⟨0, 0, [⟨0, 0⟩, ⟨1, 0⟩], some "in"⟩], [], [], [], [], [], 1, 0⟩

/-- A classification with one output group and one ungrouped audio output,
used to exercise the pad-template directions. -/
def c6WitnessState : GstLV2ClassState :=
  ⟨[], [⟨0, 0, [⟨0, 0⟩], some "out"⟩], [], [⟨1, 1⟩], [], [], 0, 2⟩

/-- The plugin owning `c6WitnessState`. -/
def c6WitnessPlug : SLV2PluginM :=
  ⟨[⟨false, some 0, true, false, false, false, none, none, none, "og"⟩,
    ⟨false, none, true, false, false, false, none, none, none, "aout"⟩],
   [(0, "out")], false⟩

/-! ## Helper lemmas -/

theorem list_getD_set_self {α : Type} (l : List α) (k : Nat) (x d : α)
    (h : k < l.length) : (l.set k x).getD k d = x := by
  simp [List.getD_eq_getElem?_getD, List.getElem?_set_self h]

/-! ## C9 -/

/-- C9: an ungrouped port matching neither the audio nor the control class
contributes to no bucket and no count, and classification of the remaining
ports proceeds exactly as if the port were absent (only the declaration index
advances); the drop never aborts classification. -/
theorem c9_unsupported_port_dropped (plug : SLV2PluginM) (j : Nat)
    (s : GstLV2ClassState) (p : LV2PortDesc) (rest : List LV2PortDesc)
    (hg : p.groupUri = none) (ha : p.isAudio = false) (hc : p.isControl = false) :
    classifyFrom plug j s (p :: rest) = classifyFrom plug (j + 1) s rest := by
  simp [classifyFrom, classifyPort, hg, ha, hc]

theorem c9_witness :
    classifyFrom emptyPlug 0 initClassState
        [⟨true, none, false, false, false, false, none, none, none, "x"⟩,
         ⟨true, none, true, false, false, false, none, none, none, "a"⟩] =
      classifyFrom emptyPlug 1 initClassState
        [⟨true, none, true, false, false, false, none, none, none, "a"⟩] :=
  c9_unsupported_port_dropped emptyPlug 0 initClassState
    ⟨true, none, false, false, false, false, none, none, none, "x"⟩
    [⟨true, none, true, false, false, false, none, none, none, "a"⟩] rfl rfl rfl

/-! ## C6 -/

/-- C6: the duplicate pad-template addition loop for ungrouped audio output
ports registers every such template with the sink direction constant (the
literal source behavior at line 218), whereas grouped output pads are
registered with the source (output) direction. -/
theorem c6_ungrouped_output_templates_reuse_sink (plug : SLV2PluginM)
    (s : GstLV2ClassState) :
    (∀ t ∈ audio_out_templates plug s, t.direction = GstPadDirection.sink) ∧
    (∀ t ∈ out_group_templates s, t.direction = GstPadDirection.src) ∧
    gst_lv2_pad_templates plug s =
      in_group_templates s ++ out_group_templates s ++ audio_in_templates plug s ++
        audio_out_templates plug s := by
  refine ⟨?_, ?_, rfl⟩
  · intro t ht
    simp only [audio_out_templates, List.mem_map] at ht
    obtain ⟨a, -, rfl⟩ := ht
    rfl
  · intro t ht
    simp only [out_group_templates, List.mem_map] at ht
    obtain ⟨a, -, rfl⟩ := ht
    rfl

theorem c6_witness :
    (⟨some "aout", GstPadDirection.sink, 0, 1⟩ : PadTemplate).direction =
        GstPadDirection.sink ∧
    (⟨some "out", GstPadDirection.src, 0, 1⟩ : PadTemplate).direction =
        GstPadDirection.src :=
  ⟨(c6_ungrouped_output_templates_reuse_sink c6WitnessPlug c6WitnessState).1
      ⟨some "aout", GstPadDirection.sink, 0, 1⟩ (by decide),
   (c6_ungrouped_output_templates_reuse_sink c6WitnessPlug c6WitnessState).2.1
      ⟨some "out", GstPadDirection.src, 0, 1⟩ (by decide)⟩

/-! ## C1 -/

/-- C1 counterexample: with an instance already configured (stored handle 7)
but not activated, a second `setup` with no intervening `cleanup` succeeds
and performs a new underlying instantiation, replacing the handle with the
fresh one (42). -/
theorem c1_counterexample :
    (⟨some 7, false⟩ : GstLV2Inst).instanceH ≠ none ∧
    (gst_lv2_setup (fun _ => some 42) initClassState ⟨some 7, false⟩ 48000).1 = true ∧
    (gst_lv2_setup (fun _ => some 42) initClassState ⟨some 7, false⟩ 48000).2.1.instanceH =
      some 42 :=
  ⟨by decide, rfl, rfl⟩

/-- C1 (amended): `setup` fails (returning FALSE and making no binding) only
when the instance is activated, or when the underlying instantiation yields
no instance; on a configured-but-inactive instance it succeeds and performs a
new underlying instantiation whose handle replaces the stored one. -/
theorem c1_amended_setup_fails_only_when_activated
    (instantiate : Nat → Option Nat) (cls : GstLV2ClassState) (lv2 : GstLV2Inst)
    (rate : Nat) :
    (lv2.activated = true → gst_lv2_setup instantiate cls lv2 rate = (false, lv2, [])) ∧
    (lv2.activated = false → instantiate rate = none →
      gst_lv2_setup instantiate cls lv2 rate = (false, { lv2 with instanceH := none }, [])) ∧
    (∀ h, lv2.activated = false → instantiate rate = some h →
      (gst_lv2_setup instantiate cls lv2 rate).1 = true ∧
      (gst_lv2_setup instantiate cls lv2 rate).2.1.instanceH = some h) := by
  refine ⟨fun ha => ?_, fun ha hn => ?_, fun h ha hs => ?_⟩ <;>
    simp [gst_lv2_setup, ha]
  · simp [hn]
  · simp [hs]

theorem c1_witness :
    gst_lv2_setup (fun _ => some 1) initClassState ⟨some 3, true⟩ 8000 =
        (false, ⟨some 3, true⟩, []) ∧
    ((gst_lv2_setup (fun _ => some 5) initClassState ⟨some 3, false⟩ 8000).1 = true ∧
      (gst_lv2_setup (fun _ => some 5) initClassState ⟨some 3, false⟩ 8000).2.1.instanceH =
        some 5) :=
  ⟨(c1_amended_setup_fails_only_when_activated (fun _ => some 1) initClassState
      ⟨some 3, true⟩ 8000).1 rfl,
   (c1_amended_setup_fails_only_when_activated (fun _ => some 5) initClassState
      ⟨some 3, false⟩ 8000).2.2 5 rfl rfl⟩

/-! ## C3 -/

/-- C3 counterexample: a plugin with one (grouped) audio input and one audio
output is categorized "Source/Audio/LV2" by the code, because the category
branch consults only the ungrouped audio counts; the claim as stated demands
filter/effect for a plugin with at least one audio input and output. -/
theorem c3_counterexample :
    pluginAudioInputs c3CexPlug = 1 ∧ pluginAudioOutputs c3CexPlug = 1 ∧
    gst_lv2_base_init_tags c3CexPlug = "Source/Audio/LV2" ∧
    "Source/Audio/LV2" ≠ "Filter/Effect/Audio/LV2" := by decide

/-- C3 (amended): the synthesized category is determined by the classified
ungrouped counts (grouped audio ports do not contribute): zero ungrouped
audio inputs yields source; at least one ungrouped audio input with zero
ungrouped audio outputs yields sink, refined to analyzer-sink when there is
at least one control output; otherwise filter/effect. -/
theorem c3_amended_category_from_ungrouped_counts (plug : SLV2PluginM) :
    ((gst_lv2_base_init_classify plug).audio_in_ports.length = 0 →
      gst_lv2_base_init_tags plug = "Source/Audio/LV2") ∧
    ((gst_lv2_base_init_classify plug).audio_in_ports.length ≠ 0 →
      (gst_lv2_base_init_classify plug).audio_out_ports.length = 0 →
      (gst_lv2_base_init_classify plug).control_out_ports.length = 0 →
      gst_lv2_base_init_tags plug = "Sink/Audio/LV2") ∧
    ((gst_lv2_base_init_classify plug).audio_in_ports.length ≠ 0 →
      (gst_lv2_base_init_classify plug).audio_out_ports.length = 0 →
      (gst_lv2_base_init_classify plug).control_out_ports.length ≠ 0 →
      gst_lv2_base_init_tags plug = "Sink/Analyzer/Audio/LV2") ∧
    ((gst_lv2_base_init_classify plug).audio_in_ports.length ≠ 0 →
      (gst_lv2_base_init_classify plug).audio_out_ports.length ≠ 0 →
      gst_lv2_base_init_tags plug = "Filter/Effect/Audio/LV2") := by
  refine ⟨fun h1 => ?_, fun h1 h2 h3 => ?_, fun h1 h2 h3 => ?_, fun h1 h2 => ?_⟩
  · simp [gst_lv2_base_init_tags, gst_lv2_klass_tags, h1]
  · simp [gst_lv2_base_init_tags, gst_lv2_klass_tags, h1, h2, h3]
  · simp [gst_lv2_base_init_tags, gst_lv2_klass_tags, h1, h2, h3]
  · simp [gst_lv2_base_init_tags, gst_lv2_klass_tags, h1, h2]

theorem c3_witness :
    gst_lv2_base_init_tags emptyPlug = "Source/Audio/LV2" ∧
    gst_lv2_base_init_tags filterPlug = "Filter/Effect/Audio/LV2" :=
  ⟨(c3_amended_category_from_ungrouped_counts emptyPlug).1 (by decide),
   (c3_amended_category_from_ungrouped_counts filterPlug).2.2.2 (by decide) (by decide)⟩

/-! ## C4 -/

/-- C4: for a non-toggled control port whose declared default lies outside
its declared [lower, upper] range, the synthesized parameter spec keeps the
default unchanged, widens the violated bound to the default (lower becomes
the default when the default is below, upper becomes the default when it is
above), so the default always lies within the resulting bounds, and a
warning is emitted. -/
theorem c4_out_of_range_default_widens_bound
    (plug : SLV2PluginM) (portnum : Nat) (port : LV2PortDesc)
    (hport : plug.ports.get? portnum = some port)
    (htog : port.toggled = false)
    (dv dl du : ℚ)
    (hdef : port.rdef = some dv) (hmin : port.rmin = some dl)
    (hmax : port.rmax = some du) (hout : dv < dl ∨ du < dv) :
    ∃ ps, gst_lv2_class_get_param_spec plug portnum = some ps ∧
      ps.defaultValue = dv ∧ ps.lower ≤ dv ∧ dv ≤ ps.upper ∧
      (dv < dl → ps.lower = dv) ∧ (du < dv → ps.upper = dv) ∧
      ps.warned = true := by
  unfold gst_lv2_class_get_param_spec
  rw [hport]
  simp only [htog, Bool.false_eq_true, if_false, hdef, hmin, hmax, Option.getD_some]
  refine ⟨_, rfl, rfl, ?_, ?_, ?_, ?_, ?_⟩
  · by_cases h : dv < dl
    · simp [h]
    · simp [h]; linarith [not_lt.mp h]
  · by_cases h : dv > du
    · simp [h]
    · simp [h]; linarith [not_lt.mp h]
  · intro h; simp [h]
  · intro h; simp [gt_iff_lt, h]
  · rcases hout with h | h
    · simp [h]
    · simp [gt_iff_lt, h]

theorem c4_witness :
    ∃ ps, gst_lv2_class_get_param_spec c4WitnessPlug 0 = some ps ∧
      ps.defaultValue = 3 / 2 ∧ ps.lower ≤ 3 / 2 ∧ (3 / 2 : ℚ) ≤ ps.upper ∧
      ((3 : ℚ) / 2 < 0 → ps.lower = 3 / 2) ∧ ((1 : ℚ) < 3 / 2 → ps.upper = 3 / 2) ∧
      ps.warned = true :=
  c4_out_of_range_default_widens_bound c4WitnessPlug 0
    ⟨true, none, false, true, false, false, some (3 / 2), some 0, some 1, "gain"⟩
    rfl rfl (3 / 2) 0 1 rfl rfl rfl (Or.inr (by norm_num))

/-! ## C8 -/

/-- C8: the property surface addresses controls by a 1-based index over
control-inputs followed by control-outputs: reading index i with
1 ≤ i ≤ num_control_in yields control-input slot i-1; reading
num_control_in < i ≤ num_control_in + num_control_out yields control-output
slot i-1-num_control_in; setting index 0 or any index beyond the control
inputs (output-only or out of range) is refused and leaves every control
storage slot unchanged. -/
theorem c8_property_index_space (cls : GstSPClassCounts) (gsp : GstSPControls)
    (i : Nat) (hi : i < GUINT_MOD)
    (hcnt : cls.num_control_in + cls.num_control_out < GUINT_MOD) :
    (1 ≤ i → i ≤ cls.num_control_in →
      gst_lv2_get_property cls gsp i PSpecKind.floatSpec =
        some (GValueM.floatV (gsp.control_in.getD (i - 1) 0))) ∧
    (cls.num_control_in + 1 ≤ i → i ≤ cls.num_control_in + cls.num_control_out →
      gst_lv2_get_property cls gsp i PSpecKind.floatSpec =
        some (GValueM.floatV (gsp.control_out.getD (i - 1 - cls.num_control_in) 0))) ∧
    (∀ v, i = 0 ∨ cls.num_control_in + 1 ≤ i →
      gst_lv2_set_property cls gsp i v = gsp) := by
  refine ⟨fun h1 h2 => ?_, fun h1 h2 => ?_, fun v hv => ?_⟩
  · have hpid : (i + (GUINT_MOD - 1)) % GUINT_MOD = i - 1 := by
      unfold GUINT_MOD at *; omega
    simp only [gst_lv2_get_property, hpid]
    rw [if_pos (show i - 1 < cls.num_control_in by omega)]
  · have hpid : (i + (GUINT_MOD - 1)) % GUINT_MOD = i - 1 := by
      unfold GUINT_MOD at *; omega
    simp only [gst_lv2_get_property, hpid]
    rw [if_neg (show ¬(i - 1 < cls.num_control_in) by omega),
      if_pos (show i - 1 < cls.num_control_in + cls.num_control_out by omega)]
  · rcases hv with h0 | hgt
    · subst h0
      have hpid : (0 + (GUINT_MOD - 1)) % GUINT_MOD = GUINT_MOD - 1 := by
        unfold GUINT_MOD; omega
      simp only [gst_lv2_set_property, hpid]
      rw [if_neg (show ¬(GUINT_MOD - 1 < cls.num_control_in) by unfold GUINT_MOD at *; omega)]
    · have hpid : (i + (GUINT_MOD - 1)) % GUINT_MOD = i - 1 := by
        unfold GUINT_MOD at *; omega
      simp only [gst_lv2_set_property, hpid]
      rw [if_neg (show ¬(i - 1 < cls.num_control_in) by omega)]

theorem c8_witness :
    gst_lv2_get_property ⟨2, 1⟩ ⟨[5, 7], [9]⟩ 2 PSpecKind.floatSpec =
        some (GValueM.floatV 7) ∧
    gst_lv2_get_property ⟨2, 1⟩ ⟨[5, 7], [9]⟩ 3 PSpecKind.floatSpec =
        some (GValueM.floatV 9) ∧
    gst_lv2_set_property ⟨2, 1⟩ ⟨[5, 7], [9]⟩ 4 (GValueM.floatV 11) = ⟨[5, 7], [9]⟩ ∧
    gst_lv2_set_property ⟨2, 1⟩ ⟨[5, 7], [9]⟩ 0 (GValueM.floatV 11) = ⟨[5, 7], [9]⟩ := by
  have h2 := c8_property_index_space ⟨2, 1⟩ ⟨[5, 7], [9]⟩ 2
    (by norm_num [GUINT_MOD]) (by norm_num [GUINT_MOD])
  have h3 := c8_property_index_space ⟨2, 1⟩ ⟨[5, 7], [9]⟩ 3
    (by norm_num [GUINT_MOD]) (by norm_num [GUINT_MOD])
  have h4 := c8_property_index_space ⟨2, 1⟩ ⟨[5, 7], [9]⟩ 4
    (by norm_num [GUINT_MOD]) (by norm_num [GUINT_MOD])
  have h0 := c8_property_index_space ⟨2, 1⟩ ⟨[5, 7], [9]⟩ 0
    (by norm_num [GUINT_MOD]) (by norm_num [GUINT_MOD])
  exact ⟨h2.1 (by norm_num) (by norm_num), h3.2.1 (by norm_num) (by norm_num),
    h4.2.2 _ (Or.inr (by norm_num)), h0.2.2 _ (Or.inl rfl)⟩

/-! ## C10 -/

/-- C10: for a boolean control-input parameter at 1-based index i, the setter
stores 0.0 for TRUE and 1.0 for FALSE into control-input slot i-1, while the
getter reports TRUE exactly when the stored value exceeds 0.0; hence reading
the parameter right after setting it returns the logical negation of the
value that was set. -/
theorem c10_boolean_set_get_negates (cls : GstSPClassCounts) (gsp : GstSPControls)
    (i : Nat) (b : Bool)
    (hlen : cls.num_control_in = gsp.control_in.length)
    (h1 : 1 ≤ i) (h2 : i ≤ cls.num_control_in) (hi : i < GUINT_MOD) :
    (gst_lv2_set_property cls gsp i (GValueM.boolV b)).control_in.getD (i - 1) 0 =
      (if b then (0 : ℚ) else 1) ∧
    gst_lv2_get_property cls (gst_lv2_set_property cls gsp i (GValueM.boolV b)) i
        PSpecKind.boolSpec = some (GValueM.boolV (!b)) := by
  have hpid : (i + (GUINT_MOD - 1)) % GUINT_MOD = i - 1 := by
    unfold GUINT_MOD at *; omega
  have hlt : i - 1 < cls.num_control_in := by omega
  have hset : gst_lv2_set_property cls gsp i (GValueM.boolV b) =
      { gsp with control_in := gsp.control_in.set (i - 1) (if b then 0 else 1) } := by
    simp only [gst_lv2_set_property, hpid]
    rw [if_pos hlt]
  have hstore : (gsp.control_in.set (i - 1) (if b then (0 : ℚ) else 1)).getD (i - 1) 0 =
      (if b then (0 : ℚ) else 1) :=
    list_getD_set_self _ _ _ _ (by omega)
  refine ⟨by rw [hset]; exact hstore, ?_⟩
  rw [hset]
  simp only [gst_lv2_get_property, hpid]
  rw [if_pos hlt]
  rw [hstore]
  cases b <;> norm_num

theorem c10_witness :
    (gst_lv2_set_property ⟨1, 0⟩ ⟨[5], []⟩ 1 (GValueM.boolV true)).control_in.getD 0 0 =
        (0 : ℚ) ∧
    gst_lv2_get_property ⟨1, 0⟩ (gst_lv2_set_property ⟨1, 0⟩ ⟨[5], []⟩ 1 (GValueM.boolV true))
        1 PSpecKind.boolSpec = some (GValueM.boolV false) := by
  have h := c10_boolean_set_get_negates ⟨1, 0⟩ ⟨[5], []⟩ 1 true rfl
    (by norm_num) (by norm_num) (by norm_num [GUINT_MOD])
  exact ⟨h.1, h.2⟩

/-! ## C5 -/

theorem mem_memberBindsFrom (mk : Nat → Nat → BufRef) (n i : Nat) :
    ∀ (ports : List GstLV2Port) (j0 j : Nat) (p : GstLV2Port),
      ports.get? j = some p →
      LV2Event.connect p.index (mk i ((j0 + j) * n)) ∈ memberBindsFrom mk n i j0 ports := by
  intro ports
  induction ports with
  | nil => intro j0 j p h; simp at h
  | cons q qs ih =>
    intro j0 j p h
    cases j with
    | zero =>
      obtain rfl : q = p := by simpa using h
      simp [memberBindsFrom]
    | succ j' =>
      have hj : j0 + (j' + 1) = (j0 + 1) + j' := by omega
      rw [hj]
      exact List.mem_cons_of_mem _ (ih (j0 + 1) j' p (by simpa using h))

theorem mem_groupBindsFrom (mk : Nat → Nat → BufRef) (n : Nat) :
    ∀ (groups : List GstLV2Group) (i0 i : Nat) (g : GstLV2Group) (j : Nat)
      (p : GstLV2Port),
      groups.get? i = some g → g.ports.get? j = some p →
      LV2Event.connect p.index (mk (i0 + i) (j * n)) ∈ groupBindsFrom mk n i0 groups := by
  intro groups
  induction groups with
  | nil => intro i0 i g j p hg; simp at hg
  | cons h0 t ih =>
    intro i0 i g j p hg hp
    cases i with
    | zero =>
      obtain rfl : h0 = g := by simpa using hg
      rw [groupBindsFrom]
      apply List.mem_append_left
      have := mem_memberBindsFrom mk n i0 _ 0 j p hp
      simpa using this
    | succ i' =>
      have hi : i0 + (i' + 1) = (i0 + 1) + i' := by omega
      rw [hi, groupBindsFrom]
      exact List.mem_append_right _ (ih (i0 + 1) i' g j p (by simpa using hg) hp)

theorem filter_isRun_memberBindsFrom (mk : Nat → Nat → BufRef) (n i : Nat) :
    ∀ (j0 : Nat) (ports : List GstLV2Port),
      (memberBindsFrom mk n i j0 ports).filter isRunEvent = [] := by
  intro j0 ports
  induction ports generalizing j0 with
  | nil => rfl
  | cons q qs ih => simp [memberBindsFrom, isRunEvent, ih]

theorem filter_isRun_groupBindsFrom (mk : Nat → Nat → BufRef) (n : Nat) :
    ∀ (i0 : Nat) (groups : List GstLV2Group),
      (groupBindsFrom mk n i0 groups).filter isRunEvent = [] := by
  intro i0 groups
  induction groups generalizing i0 with
  | nil => rfl
  | cons g gs ih =>
    simp [groupBindsFrom, List.filter_append, filter_isRun_memberBindsFrom, ih]

theorem filter_isRun_audioBindsFrom (mk : Nat → BufRef) :
    ∀ (i0 : Nat) (ports : List GstLV2Port),
      (audioBindsFrom mk i0 ports).filter isRunEvent = [] := by
  intro i0 ports
  induction ports generalizing i0 with
  | nil => rfl
  | cons q qs ih => simp [audioBindsFrom, isRunEvent, ih]

/-- C5: one `process` cycle rebinds buffers in the fixed bucket order grouped
inputs, ungrouped audio inputs, grouped outputs, ungrouped audio outputs;
the plugin's run step is invoked exactly once, for `nframes` frames, after
all rebinding; and within any group the member at position j (0-indexed in
discovery order) is bound at offset j*nframes inside that group's single pad
buffer. -/
theorem c5_process_rebind_order_and_offsets (cls : GstLV2ClassState) (n : Nat) :
    gst_lv2_process cls n =
      groupBindsFrom BufRef.groupInBuf n 0 cls.in_groups ++
        audioBindsFrom BufRef.audioInBuf 0 cls.audio_in_ports ++
        groupBindsFrom BufRef.groupOutBuf n 0 cls.out_groups ++
        audioBindsFrom BufRef.audioOutBuf 0 cls.audio_out_ports ++
        [LV2Event.runStep n] ∧
    (gst_lv2_process cls n).filter isRunEvent = [LV2Event.runStep n] ∧
    (∀ i g j p, cls.in_groups.get? i = some g → g.ports.get? j = some p →
      LV2Event.connect p.index (BufRef.groupInBuf i (j * n)) ∈ gst_lv2_process cls n) ∧
    (∀ i g j p, cls.out_groups.get? i = some g → g.ports.get? j = some p →
      LV2Event.connect p.index (BufRef.groupOutBuf i (j * n)) ∈ gst_lv2_process cls n) := by
  refine ⟨by simp [gst_lv2_process], ?_, ?_, ?_⟩
  · simp [gst_lv2_process, List.filter_append, filter_isRun_groupBindsFrom,
      filter_isRun_audioBindsFrom, isRunEvent]
  · intro i g j p hg hp
    unfold gst_lv2_process
    refine List.mem_append_left _ (List.mem_append_left _ (List.mem_append_left _
      (List.mem_append_left _ ?_)))
    have := mem_groupBindsFrom BufRef.groupInBuf n cls.in_groups 0 i g j p hg hp
    simpa using this
  · intro i g j p hg hp
    unfold gst_lv2_process
    refine List.mem_append_left _ (List.mem_append_left _ (List.mem_append_right _ ?_))
    have := mem_groupBindsFrom BufRef.groupOutBuf n cls.out_groups 0 i g j p hg hp
    simpa using this

theorem c5_witness :
    LV2Event.connect 1 (BufRef.groupInBuf 0 4) ∈ gst_lv2_process c5WitnessState 4 :=
  (c5_process_rebind_order_and_offsets c5WitnessState 4).2.2.1 0
    ⟨0, 0, [⟨0, 0⟩, ⟨1, 0⟩], some "in"⟩ 1 ⟨1, 0⟩ rfl rfl

/-! ## C2 -/

theorem map_pad_set (f : GstLV2Group → Nat) :
    ∀ (groups : List GstLV2Group) (k : Nat) (g g' : GstLV2Group),
      groups.get? k = some g → f g' = f g → (groups.set k g').map f = groups.map f := by
  intro groups
  induction groups with
  | nil => intro k g g' h; simp at h
  | cons h0 t ih =>
    intro k g g' hk hf
    cases k with
    | zero =>
      obtain rfl : h0 = g := by simpa using hk
      simp [List.set, hf]
    | succ k' =>
      simp only [List.set, List.map_cons]
      rw [ih k' g g' (by simpa using hk) hf]

theorem map_pad_appendPortToGroup (groups : List GstLV2Group) (k : Nat)
    (d : GstLV2Port) :
    (appendPortToGroup groups k d).map (fun g => g.pad) = groups.map (fun g => g.pad) := by
  unfold appendPortToGroup
  cases hk : groups.get? k with
  | none => rfl
  | some g => exact map_pad_set (fun g => g.pad) groups k g _ hk rfl

theorem perm_range_snoc_right {A B : List Nat} {n : Nat}
    (h : (A ++ B).Perm (List.range n)) :
    (A ++ (B ++ [n])).Perm (List.range (n + 1)) := by
  have hr : List.range (n + 1) = List.range n ++ [n] := List.range_succ n
  rw [hr, ← List.append_assoc]
  exact h.append_right [n]

theorem perm_range_snoc_left {A B : List Nat} {n : Nat}
    (h : (A ++ B).Perm (List.range n)) :
    ((A ++ [n]) ++ B).Perm (List.range (n + 1)) := by
  have h1 : ((A ++ [n]) ++ B).Perm (A ++ (B ++ [n])) := by
    rw [List.append_assoc]
    exact List.Perm.append_left A List.perm_append_comm
  exact h1.trans (perm_range_snoc_right h)

/-- Invariant step: one classification step keeps the per-direction pad-slot
lists a permutation of an initial segment of the naturals of size equal to
the direction's running counter. -/
theorem classifyPort_pads_perm (plug : SLV2PluginM) (j : Nat) (p : LV2PortDesc)
    (s : GstLV2ClassState)
    (hin : (inPadSlots s).Perm (List.range s.in_pad_index))
    (hout : (outPadSlots s).Perm (List.range s.out_pad_index)) :
    (inPadSlots (classifyPort plug j p s)).Perm
      (List.range (classifyPort plug j p s).in_pad_index) ∧
    (outPadSlots (classifyPort plug j p s)).Perm
      (List.range (classifyPort plug j p s).out_pad_index) := by
  cases hgu : p.groupUri with
  | some uri =>
    cases hi : p.isInput with
    | true =>
      cases hf : gst_lv2_class_find_group s.in_groups uri with
      | some k =>
        constructor
        · simpa [inPadSlots, classifyPort, hgu, hi, hf, map_pad_appendPortToGroup]
            using hin
        · simpa [outPadSlots, classifyPort, hgu, hi, hf] using hout
      | none =>
        constructor
        · have h2 := perm_range_snoc_left (A := s.in_groups.map (fun g => g.pad))
            (B := s.audio_in_ports.map (fun q => q.pad)) (n := s.in_pad_index)
            (by simpa [inPadSlots] using hin)
          simpa [inPadSlots, classifyPort, hgu, hi, hf] using h2
        · simpa [outPadSlots, classifyPort, hgu, hi, hf] using hout
    | false =>
      cases hf : gst_lv2_class_find_group s.out_groups uri with
      | some k =>
        constructor
        · simpa [inPadSlots, classifyPort, hgu, hi, hf] using hin
        · simpa [outPadSlots, classifyPort, hgu, hi, hf, map_pad_appendPortToGroup]
            using hout
      | none =>
        constructor
        · simpa [inPadSlots, classifyPort, hgu, hi, hf] using hin
        · have h2 := perm_range_snoc_left (A := s.out_groups.map (fun g => g.pad))
            (B := s.audio_out_ports.map (fun q => q.pad)) (n := s.out_pad_index)
            (by simpa [outPadSlots] using hout)
          simpa [outPadSlots, classifyPort, hgu, hi, hf] using h2
  | none =>
    cases ha : p.isAudio with
    | true =>
      cases hi : p.isInput with
      | true =>
        constructor
        · have h2 := perm_range_snoc_right (A := s.in_groups.map (fun g => g.pad))
            (B := s.audio_in_ports.map (fun q => q.pad)) (n := s.in_pad_index)
            (by simpa [inPadSlots] using hin)
          simpa [inPadSlots, classifyPort, hgu, ha, hi] using h2
        · simpa [outPadSlots, classifyPort, hgu, ha, hi] using hout
      | false =>
        constructor
        · simpa [inPadSlots, classifyPort, hgu, ha, hi] using hin
        · have h2 := perm_range_snoc_right (A := s.out_groups.map (fun g => g.pad))
            (B := s.audio_out_ports.map (fun q => q.pad)) (n := s.out_pad_index)
            (by simpa [outPadSlots] using hout)
          simpa [outPadSlots, classifyPort, hgu, ha, hi] using h2
    | false =>
      cases hc : p.isControl with
      | true =>
        cases hi : p.isInput with
        | true =>
          constructor
          · simpa [inPadSlots, classifyPort, hgu, ha, hc, hi] using hin
          · simpa [outPadSlots, classifyPort, hgu, ha, hc, hi] using hout
        | false =>
          constructor
          · simpa [inPadSlots, classifyPort, hgu, ha, hc, hi] using hin
          · simpa [outPadSlots, classifyPort, hgu, ha, hc, hi] using hout
      | false =>
        constructor
        · simpa [inPadSlots, classifyPort, hgu, ha, hc] using hin
        · simpa [outPadSlots, classifyPort, hgu, ha, hc] using hout

theorem classifyFrom_pads_perm (plug : SLV2PluginM) :
    ∀ (ports : List LV2PortDesc) (j : Nat) (s : GstLV2ClassState),
      (inPadSlots s).Perm (List.range s.in_pad_index) →
      (outPadSlots s).Perm (List.range s.out_pad_index) →
      (inPadSlots (classifyFrom plug j s ports)).Perm
        (List.range (classifyFrom plug j s ports).in_pad_index) ∧
      (outPadSlots (classifyFrom plug j s ports)).Perm
        (List.range (classifyFrom plug j s ports).out_pad_index) := by
  intro ports
  induction ports with
  | nil => intro j s hin hout; exact ⟨hin, hout⟩
  | cons p rest ih =>
    intro j s hin hout
    have h := classifyPort_pads_perm plug j p s hin hout
    exact ih (j + 1) (classifyPort plug j p s) h.1 h.2

/-- C2 counterexample: in a plugin whose first port is a grouped audio input
and whose second is an ungrouped audio input, the group takes pad slot 0 and
the first ungrouped audio input takes pad slot 1, not 0: the two numbering
sequences are not independent. -/
theorem c2_counterexample :
    (gst_lv2_base_init_classify c2CexPlug).in_groups.map (fun g => g.pad) = [0] ∧
    (gst_lv2_base_init_classify c2CexPlug).audio_in_ports.map (fun p => p.pad) = [1] := by
  decide

/-- C2 (amended): the pad slot numbers assigned to groups and to ungrouped
audio ports are drawn from one shared per-direction counter starting at zero,
assigned in encounter order: after classifying any port prefix the counter of
each direction equals the number of groups plus ungrouped audio ports already
recorded for that direction; a classification step on an ungrouped audio
port, or on a grouped port whose group is created at that step, assigns
exactly that counter value as the slot and advances the counter by one; and
over the whole plugin the combined slots of each direction are exactly a
permutation of 0 .. n-1. -/
theorem c2_amended_shared_pad_slot_sequence (plug : SLV2PluginM) :
    (∀ (j : Nat) (ports : List LV2PortDesc),
      (classifyFrom plug j initClassState ports).in_pad_index =
          (classifyFrom plug j initClassState ports).in_groups.length +
            (classifyFrom plug j initClassState ports).audio_in_ports.length ∧
        (classifyFrom plug j initClassState ports).out_pad_index =
          (classifyFrom plug j initClassState ports).out_groups.length +
            (classifyFrom plug j initClassState ports).audio_out_ports.length) ∧
    (∀ (j : Nat) (p : LV2PortDesc) (s : GstLV2ClassState),
      p.groupUri = none → p.isAudio = true → p.isInput = true →
      (classifyPort plug j p s).audio_in_ports =
          s.audio_in_ports ++ [⟨j, s.in_pad_index⟩] ∧
        (classifyPort plug j p s).in_pad_index = s.in_pad_index + 1 ∧
        (classifyPort plug j p s).in_groups = s.in_groups) ∧
    (∀ (j : Nat) (p : LV2PortDesc) (s : GstLV2ClassState),
      p.groupUri = none → p.isAudio = true → p.isInput = false →
      (classifyPort plug j p s).audio_out_ports =
          s.audio_out_ports ++ [⟨j, s.out_pad_index⟩] ∧
        (classifyPort plug j p s).out_pad_index = s.out_pad_index + 1 ∧
        (classifyPort plug j p s).out_groups = s.out_groups) ∧
    (∀ (j : Nat) (p : LV2PortDesc) (s : GstLV2ClassState) (uri : Nat),
      p.groupUri = some uri → p.isInput = true →
      gst_lv2_class_find_group s.in_groups uri = none →
      (classifyPort plug j p s).in_groups =
          s.in_groups ++ [⟨uri, s.in_pad_index, [⟨j, 0⟩], groupSymbolOf plug uri⟩] ∧
        (classifyPort plug j p s).in_pad_index = s.in_pad_index + 1 ∧
        (classifyPort plug j p s).audio_in_ports = s.audio_in_ports) ∧
    (∀ (j : Nat) (p : LV2PortDesc) (s : GstLV2ClassState) (uri : Nat),
      p.groupUri = some uri → p.isInput = false →
      gst_lv2_class_find_group s.out_groups uri = none →
      (classifyPort plug j p s).out_groups =
          s.out_groups ++ [⟨uri, s.out_pad_index, [⟨j, 0⟩], groupSymbolOf plug uri⟩] ∧
        (classifyPort plug j p s).out_pad_index = s.out_pad_index + 1 ∧
        (classifyPort plug j p s).audio_out_ports = s.audio_out_ports) ∧
    (inPadSlots (gst_lv2_base_init_classify plug)).Perm
      (List.range ((gst_lv2_base_init_classify plug).in_groups.length +
        (gst_lv2_base_init_classify plug).audio_in_ports.length)) ∧
    (outPadSlots (gst_lv2_base_init_classify plug)).Perm
      (List.range ((gst_lv2_base_init_classify plug).out_groups.length +
        (gst_lv2_base_init_classify plug).audio_out_ports.length)) := by
  have hperm := classifyFrom_pads_perm plug plug.ports 0 initClassState
    (by simp [inPadSlots, initClassState]) (by simp [outPadSlots, initClassState])
  refine ⟨?_, ?_, ?_, ?_, ?_, ?_, ?_⟩
  · intro j ports
    have h := classifyFrom_pads_perm plug ports j initClassState
      (by simp [inPadSlots, initClassState]) (by simp [outPadSlots, initClassState])
    constructor
    · have hlen := h.1.length_eq
      simp only [inPadSlots, List.length_append, List.length_map,
        List.length_range] at hlen
      omega
    · have hlen := h.2.length_eq
      simp only [outPadSlots, List.length_append, List.length_map,
        List.length_range] at hlen
      omega
  · intro j p s hgu ha hi
    refine ⟨?_, ?_, ?_⟩ <;> simp [classifyPort, hgu, ha, hi]
  · intro j p s hgu ha hi
    refine ⟨?_, ?_, ?_⟩ <;> simp [classifyPort, hgu, ha, hi]
  · intro j p s uri hgu hi hf
    refine ⟨?_, ?_, ?_⟩ <;> simp [classifyPort, hgu, hi, hf]
  · intro j p s uri hgu hi hf
    refine ⟨?_, ?_, ?_⟩ <;> simp [classifyPort, hgu, hi, hf]
  · have hlin : (gst_lv2_base_init_classify plug).in_groups.length +
        (gst_lv2_base_init_classify plug).audio_in_ports.length =
          (gst_lv2_base_init_classify plug).in_pad_index := by
      have hlen := hperm.1.length_eq
      simpa [gst_lv2_base_init_classify, inPadSlots] using hlen
    rw [hlin]
    exact hperm.1
  · have hlout : (gst_lv2_base_init_classify plug).out_groups.length +
        (gst_lv2_base_init_classify plug).audio_out_ports.length =
          (gst_lv2_base_init_classify plug).out_pad_index := by
      have hlen := hperm.2.length_eq
      simpa [gst_lv2_base_init_classify, outPadSlots] using hlen
    rw [hlout]
    exact hperm.2

theorem c2_witness :
    ((classifyPort c2CexPlug 1
        ⟨true, none, true, false, false, false, none, none, none, "a0"⟩
        ⟨[⟨0, 0, [⟨0, 0⟩], some "grp"⟩], [], [], [], [], [], 1, 0⟩).audio_in_ports =
      ([] : List GstLV2Port) ++ [⟨1, 1⟩] ∧
      (classifyPort c2CexPlug 1
        ⟨true, none, true, false, false, false, none, none, none, "a0"⟩
        ⟨[⟨0, 0, [⟨0, 0⟩], some "grp"⟩], [], [], [], [], [], 1, 0⟩).in_pad_index = 1 + 1 ∧
      (classifyPort c2CexPlug 1
        ⟨true, none, true, false, false, false, none, none, none, "a0"⟩
        ⟨[⟨0, 0, [⟨0, 0⟩], some "grp"⟩], [], [], [], [], [], 1, 0⟩).in_groups =
        [⟨0, 0, [⟨0, 0⟩], some "grp"⟩]) ∧
    ((classifyPort c2CexPlug 0
        ⟨true, some 0, true, false, false, false, none, none, none, "g0"⟩
        initClassState).in_groups =
      initClassState.in_groups ++ [⟨0, 0, [⟨0, 0⟩], groupSymbolOf c2CexPlug 0⟩] ∧
      (classifyPort c2CexPlug 0
        ⟨true, some 0, true, false, false, false, none, none, none, "g0"⟩
        initClassState).in_pad_index = 0 + 1 ∧
      (classifyPort c2CexPlug 0
        ⟨true, some 0, true, false, false, false, none, none, none, "g0"⟩
        initClassState).audio_in_ports = initClassState.audio_in_ports) :=
  ⟨(c2_amended_shared_pad_slot_sequence c2CexPlug).2.1 1
      ⟨true, none, true, false, false, false, none, none, none, "a0"⟩
      ⟨[⟨0, 0, [⟨0, 0⟩], some "grp"⟩], [], [], [], [], [], 1, 0⟩ rfl rfl rfl,
   (c2_amended_shared_pad_slot_sequence c2CexPlug).2.2.2.1 0
      ⟨true, some 0, true, false, false, false, none, none, none, "g0"⟩
      initClassState 0 rfl rfl rfl⟩

/-! ## C7 -/

theorem lookupType_append_single (acc : List (List Char × Nat)) (nm : List Char)
    (v : Nat) (name : List Char) :
    lookupType (acc ++ [(nm, v)]) name =
      (lookupType acc name).or (if nm == name then some v else none) := by
  unfold lookupType
  rw [List.find?_append]
  cases h : acc.find? (fun e => e.1 == name) with
  | some e => simp
  | none =>
    by_cases hb : (nm == name) = true
    · simp [List.find?_cons, hb]
    · simp [List.find?_cons, hb]

theorem lookupType_register_fold (ps : List DiscPlugin) :
    ∀ (acc : List (List Char × Nat)) (name : List Char),
      lookupType (ps.foldl lv2_register_step acc) name =
        (lookupType acc name).or
          ((ps.find? (fun p => g_strcanon p.uri == name)).map (fun p => p.id)) := by
  induction ps with
  | nil => intro acc name; simp [Option.or_none]
  | cons p rest ih =>
    intro acc name
    rw [List.foldl_cons, ih]
    unfold lv2_register_step
    by_cases hreg : acc.any (fun e => e.1 == g_strcanon p.uri)
    · rw [if_pos hreg]
      by_cases hn : (g_strcanon p.uri == name) = true
      · have hname : g_strcanon p.uri = name := by
          exact eq_of_beq hn
        obtain ⟨e, he, hbe⟩ := List.any_eq_true.mp hreg
        have hsome : (acc.find? (fun e => e.1 == name)).isSome := by
          rw [← hname]
          exact List.find?_isSome.mpr ⟨e, he, hbe⟩
        obtain ⟨w, hw⟩ := Option.isSome_iff_exists.mp hsome
        unfold lookupType
        rw [hw]
        simp
      · have hcons : (p :: rest).find? (fun q => g_strcanon q.uri == name) =
            rest.find? (fun q => g_strcanon q.uri == name) := by
          rw [List.find?_cons_of_neg]
          simpa using hn
        rw [hcons]
    · rw [if_neg hreg]
      rw [lookupType_append_single]
      by_cases hn : (g_strcanon p.uri == name) = true
      · have hname : g_strcanon p.uri = name := eq_of_beq hn
        have hnone : lookupType acc name = none := by
          unfold lookupType
          rw [List.find?_eq_none.mpr]
          · rfl
          · intro x hx
            intro hbx
            apply hreg
            exact List.any_eq_true.mpr ⟨x, hx, by rw [hname]; exact hbx⟩
        rw [hnone]
        have hconsp : (p :: rest).find? (fun q => g_strcanon q.uri == name) = some p :=
          List.find?_cons_of_pos _ hn
        rw [hconsp]
        simp [hn]
      · have hcons : (p :: rest).find? (fun q => g_strcanon q.uri == name) =
            rest.find? (fun q => g_strcanon q.uri == name) := by
          rw [List.find?_cons_of_neg]
          simpa using hn
        rw [hcons]
        simp at hn
        simp [hn, Option.or_assoc]

/-- C7: when two discovered plugins sanitize to the same type name (and the
first of them is the earliest plugin with that name), the second registration
is skipped rather than overwriting the first: after the whole scan the name
still resolves to the first plugin, and the scan itself completes
successfully (returns TRUE). -/
theorem c7_duplicate_sanitized_identifier_skipped
    (xs ys zs : List DiscPlugin) (p q : DiscPlugin)
    (hsame : g_strcanon q.uri = g_strcanon p.uri)
    (hfirst : ∀ r ∈ xs, g_strcanon r.uri ≠ g_strcanon p.uri) :
    (lv2_plugin_discover (xs ++ p :: (ys ++ q :: zs))).1 = true ∧
    lookupType (lv2_plugin_discover (xs ++ p :: (ys ++ q :: zs))).2
      (g_strcanon q.uri) = some p.id := by
  refine ⟨rfl, ?_⟩
  rw [hsame]
  show lookupType ((xs ++ p :: (ys ++ q :: zs)).foldl lv2_register_step [])
      (g_strcanon p.uri) = some p.id
  rw [lookupType_register_fold]
  have hemp : lookupType [] (g_strcanon p.uri) = none := rfl
  rw [hemp, Option.none_or, List.find?_append]
  have hxs : xs.find? (fun r => g_strcanon r.uri == g_strcanon p.uri) = none :=
    List.find?_eq_none.mpr (fun r hr => by simpa using hfirst r hr)
  rw [hxs, Option.none_or, List.find?_cons_of_pos _ (by simp)]
  rfl

theorem c7_witness :
    (lv2_plugin_discover [⟨0, ['a', '*']⟩, ⟨1, ['a', '!']⟩]).1 = true ∧
    lookupType (lv2_plugin_discover [⟨0, ['a', '*']⟩, ⟨1, ['a', '!']⟩]).2
      (g_strcanon ['a', '!']) = some 0 := by
  have h := c7_duplicate_sanitized_identifier_skipped [] [] []
    ⟨0, ['a', '*']⟩ ⟨1, ['a', '!']⟩ (by decide) (by simp)
  simpa using h
